import Mathlib

/-!
A shallow embedding of the renter download / repair core of the Sia
repository: `modules/renter/proto/downloader.go` (the `Downloader` sector
protocol) and the renter chunk-repair pipeline
(`managedFetchAndRepairChunk`, `managedFetchLogicalChunkData`,
`managedDownloadLogicalChunkData`).

Network and host behaviour is nondeterministic from the client's point of
view; it is modelled by explicit environment records (`SectorEnv`,
`FetchEnv`, `RepairEnv`) holding the outcome of each external interaction
(connection writes/reads, the host's replies, the filesystem, the erasure
coder).  Each modelled function returns an outcome record collecting its
return value together with its externally observable effects (the contract
handed back to the contract set, reputation-counter increments, the
persistence-hook invocation, whether network traffic happened, the memory
credited back, ...).

Byte strings are `List Nat`; errors carried by external collaborators are
abstract `Nat` codes.  Currency amounts (`types.Currency`, an unbounded
non-negative integer in the source) are `Nat`.
-/

namespace Sia

/-- The size of a sector in bytes (`modules.SectorSize`).
Modelled from the spec: the `modules` package is outside the given sources;
the spec only fixes that a sector is a fixed-size blob.  We use the concrete
value 4194304 (4 MiB). -/
def SectorSize : Nat := 4194304

/-- Modelled from the spec: `hostPriceLeeway` is defined outside the given
sources; the spec fixes it at 0.2%.  `mulLeeway p` is
`Currency.MulFloat(1 + hostPriceLeeway)` applied to `p`: the amount is
multiplied by the exact rational 1002/1000 and rounded down to an integer. -/
def mulLeeway (p : Nat) : Nat := p * 1002 / 1000

/-- A file contract revision, reduced to the two fields the downloader
observes.  Modelled from the spec: `types.FileContractRevision` is outside
the given sources; the spec records that a revision carries the renter's
remaining funds and a version number that strictly increases on every
accepted update. -/
structure Revision where
  renterFunds : Nat
  revisionNumber : Nat
deriving DecidableEq, Repr

/-- Modelled from the spec: `newDownloadRevision` is outside the given
sources; it derives the payment revision for one download from the current
revision, moving `cost` out of the renter's funds and increasing the
revision number. -/
def newDownloadRevision (current : Revision) (cost : Nat) : Revision :=
  { renterFunds := current.renterFunds - cost
    revisionNumber := current.revisionNumber + 1 }

/-- The renter's view of a file contract (`modules.RenterContract`), reduced
to the fields read or written by `Downloader.Sector`: the last accepted
revision, the transaction holding its signatures, the cumulative download
spending, the committed sector merkle roots and the host's public key. -/
structure RenterContract where
  lastRevision : Revision
  lastRevisionTxn : Nat
  downloadSpending : Nat
  merkleRoots : List Nat
  hostPublicKey : Nat
deriving DecidableEq, Repr

/-- Modelled from the spec: `RenterContract.RenterFunds` (outside the given
sources) is the renter's remaining payout under the current revision. -/
def RenterContract.renterFunds (c : RenterContract) : Nat :=
  c.lastRevision.renterFunds

/-- The distinct failure modes of `Downloader.Sector`
(`modules/renter/proto/downloader.go`), one constructor per `return` with a
non-nil error, carrying the collaborator's error code where there is one. -/
inductive SectorError where
  | contractNotPresent
  | insufficientFunds
  | startDownloadFailed (e : Nat)
  | saveFailed (e : Nat)
  | writeActionFailed (e : Nat)
  | negotiateFailed (e : Nat)
  | readSectorsFailed (e : Nat)
  | notEnoughSectors
  | notEnoughSectorData
  | badSectorData
deriving DecidableEq, Repr

/-- The host's reply to `negotiateRevision` (downloader.go line 94): the
counter-signed transaction, the graceful `ErrStopResponse`, or a failure. -/
inductive NegotiateOutcome where
  | accepted (txn : Nat)
  | stopResponse
  | failed (e : Nat)
deriving DecidableEq, Repr

/-- The environment of one `Sector` call: the outcome of every external
interaction the call can perform, in protocol order. -/
structure SectorEnv where
  /-- result of `startDownload(hd.conn, hd.host)` (line 57) -/
  startDownloadErr : Option Nat
  /-- result of `hd.SaveFn(rev, contract.MerkleRoots)` if invoked (line 67) -/
  saveErr : Option Nat
  /-- result of writing the download action (line 74) -/
  writeActionErr : Option Nat
  /-- the host's reply to the revision (line 94) -/
  negotiate : NegotiateOutcome
  /-- result of reading the sector payload list (line 107): a transport
  error, or the decoded list of payload blobs -/
  readSectorsResult : Except Nat (List (List Nat))

/-- The `Downloader` (downloader.go lines 17-27), reduced to what `Sector`
reads: the host's download bandwidth price (`host.DownloadBandwidthPrice`),
whether a persistence hook is installed (`SaveFn != nil`), and the ambient
sector hash function `crypto.MerkleRoot` (an external collaborator, kept
abstract). -/
structure Downloader where
  bandwidthPrice : Nat
  hasSaveFn : Bool
  merkleRoot : List Nat → Nat

/-- Everything observable about one `Sector` call: the returned triple
(collapsed into an `Except`: every error return carries a zero contract and
nil payload), the contract handed back to the contract set by the deferred
`Return` (none when the contract was never acquired), the argument of the
persistence hook when it was invoked, whether the download action was
written, whether the revision was sent for counter-signature, the
reputation-counter increments, and whether a connection close was deferred
by a graceful stop response. -/
structure SectorOutcome where
  result : Except SectorError (RenterContract × List Nat)
  returnedContract : Option RenterContract
  saved : Option (Revision × List Nat)
  sentDownloadAction : Bool
  sentRevision : Bool
  failedInteractions : Nat
  successfulInteractions : Nat
  connCloseDeferred : Bool
deriving Repr

/-- `Downloader.Sector` (downloader.go lines 32-125).  `inSet` is the
contract set's entry for `hd.contractID` (`Acquire` fails when it is
`none`).  The deadline manipulations (`extendDeadline`) have no observable
effect in the model and are omitted.  Note the order of operations in the
source: the funds check (line 45) compares against the price *before* the
0.2% leeway inflation (line 50); the reputation defer (lines 84-90) is only
registered after the download action has been written; the persistence hook
(line 67) receives `rev`, the newly created download revision. -/
def Downloader.Sector (hd : Downloader) (inSet : Option RenterContract)
    (root : Nat) (env : SectorEnv) : SectorOutcome :=
  -- contract, haveContract := hd.contractSet.Acquire(hd.contractID)
  match inSet with
  | none =>
    { result := .error .contractNotPresent, returnedContract := none, saved := none
      sentDownloadAction := false, sentRevision := false
      failedInteractions := 0, successfulInteractions := 0, connCloseDeferred := false }
  | some contract =>
    -- sectorPrice := hd.host.DownloadBandwidthPrice.Mul64(modules.SectorSize)
    let basePrice := hd.bandwidthPrice * SectorSize
    if contract.renterFunds < basePrice then
      { result := .error .insufficientFunds, returnedContract := some contract, saved := none
        sentDownloadAction := false, sentRevision := false
        failedInteractions := 0, successfulInteractions := 0, connCloseDeferred := false }
    else
      -- sectorPrice = sectorPrice.MulFloat(1 + hostPriceLeeway)
      let sectorPrice := mulLeeway basePrice
      -- rev := newDownloadRevision(contract.LastRevision, sectorPrice)
      let rev := newDownloadRevision contract.lastRevision sectorPrice
      -- startDownload(hd.conn, hd.host)
      match env.startDownloadErr with
      | some e =>
        { result := .error (.startDownloadFailed e), returnedContract := some contract
          saved := none, sentDownloadAction := false, sentRevision := false
          failedInteractions := 0, successfulInteractions := 0, connCloseDeferred := false }
      | none =>
        -- if hd.SaveFn != nil { if err := hd.SaveFn(rev, contract.MerkleRoots); ... }
        let saved : Option (Revision × List Nat) :=
          if hd.hasSaveFn then some (rev, contract.merkleRoots) else none
        if hd.hasSaveFn ∧ env.saveErr.isSome then
          { result := .error (.saveFailed (env.saveErr.getD 0)), returnedContract := some contract
            saved := saved, sentDownloadAction := false, sentRevision := false
            failedInteractions := 0, successfulInteractions := 0, connCloseDeferred := false }
        else
          -- encoding.WriteObject(hd.conn, []modules.DownloadAction{...})
          match env.writeActionErr with
          | some e =>
            { result := .error (.writeActionFailed e), returnedContract := some contract
              saved := saved, sentDownloadAction := false, sentRevision := false
              failedInteractions := 0, successfulInteractions := 0, connCloseDeferred := false }
          | none =>
            -- the reputation defer (lines 84-90) is armed from here on:
            -- every further return updates exactly one interaction counter
            -- signedTxn, err := negotiateRevision(hd.conn, rev, contract.SecretKey)
            match env.negotiate with
            | .failed e =>
              { result := .error (.negotiateFailed e), returnedContract := some contract
                saved := saved, sentDownloadAction := true, sentRevision := true
                failedInteractions := 1, successfulInteractions := 0, connCloseDeferred := false }
            | other =>
              let signedTxn := match other with | .accepted t => t | _ => 0
              let deferClose := match other with | .stopResponse => true | _ => false
              -- encoding.ReadObject(hd.conn, &sectors, modules.SectorSize+16)
              match env.readSectorsResult with
              | .error e =>
                { result := .error (.readSectorsFailed e), returnedContract := some contract
                  saved := saved, sentDownloadAction := true, sentRevision := true
                  failedInteractions := 1, successfulInteractions := 0
                  connCloseDeferred := deferClose }
              | .ok sectors =>
                match sectors with
                | [sector] =>
                  if sector.length ≠ SectorSize then
                    { result := .error .notEnoughSectorData, returnedContract := some contract
                      saved := saved, sentDownloadAction := true, sentRevision := true
                      failedInteractions := 1, successfulInteractions := 0
                      connCloseDeferred := deferClose }
                  else if hd.merkleRoot sector ≠ root then
                    { result := .error .badSectorData, returnedContract := some contract
                      saved := saved, sentDownloadAction := true, sentRevision := true
                      failedInteractions := 1, successfulInteractions := 0
                      connCloseDeferred := deferClose }
                  else
                    -- contract.LastRevision = rev; contract.LastRevisionTxn = signedTxn
                    -- contract.DownloadSpending = contract.DownloadSpending.Add(sectorPrice)
                    let committed : RenterContract :=
                      { contract with
                          lastRevision := rev
                          lastRevisionTxn := signedTxn
                          downloadSpending := contract.downloadSpending + sectorPrice }
                    { result := .ok (committed, sector), returnedContract := some committed
                      saved := saved, sentDownloadAction := true, sentRevision := true
                      failedInteractions := 0, successfulInteractions := 1
                      connCloseDeferred := deferClose }
                | _ =>
                  -- len(sectors) != 1
                  { result := .error .notEnoughSectors, returnedContract := some contract
                    saved := saved, sentDownloadAction := true, sentRevision := true
                    failedInteractions := 1, successfulInteractions := 0
                    connCloseDeferred := deferClose }

/-- The per-call sector price of a downloader: the bandwidth price for one
sector, inflated by the leeway factor (downloader.go lines 44 and 50). -/
def Downloader.sectorPrice (hd : Downloader) : Nat :=
  mulLeeway (hd.bandwidthPrice * SectorSize)

/-- The contract set's entry after one `Sector` call: the deferred
`contractSet.Return(contract)` stores back the (possibly updated) local
contract; when the contract was never acquired the entry is unchanged. -/
def sectorStep (hd : Downloader) (c : RenterContract) (root : Nat)
    (env : SectorEnv) : RenterContract :=
  (hd.Sector (some c) root env).returnedContract.getD c

/-- The contract set's entry after a sequence of `Sector` calls on one
contract, each call given by a requested root and an environment. -/
def runSectors (hd : Downloader) : RenterContract → List (Nat × SectorEnv) → RenterContract
  | c, [] => c
  | c, (root, env) :: rest => runSectors hd (sectorStep hd c root env) rest

/-- Every call of the sequence returns with a nil error. -/
def allSucceed (hd : Downloader) : RenterContract → List (Nat × SectorEnv) → Prop
  | _, [] => True
  | c, (root, env) :: rest =>
    (hd.Sector (some c) root env).result.isOk = true ∧
      allSucceed hd (sectorStep hd c root env) rest

/-! ## Close (downloader.go lines 127-143)

`Close` is guarded by a `sync.Once`; its observable effects are modelled as
a state record.  Closing an already-closed Go channel panics, so the model
records a fault flag that `shutdown` would set if it ever ran with
`closeChan` already closed. -/

/-- The shutdown-relevant state of a `Downloader`: whether the `sync.Once`
has been consumed, whether `closeChan` has been closed, how many times the
`shutdown` body ran (settings round-trip + stop message), how many times
`conn.Close()` was called, and whether a fault (double channel close)
occurred. -/
structure CloseState where
  onceConsumed : Bool
  closeChanClosed : Bool
  shutdownRuns : Nat
  settingsRoundTrips : Nat
  stopMessagesSent : Nat
  connCloses : Nat
  faulted : Bool
deriving DecidableEq, Repr

/-- The state of a freshly constructed `Downloader`. -/
def initialCloseState : CloseState :=
  { onceConsumed := false, closeChanClosed := false, shutdownRuns := 0
    settingsRoundTrips := 0, stopMessagesSent := 0, connCloses := 0, faulted := false }

/-- `Downloader.shutdown` (downloader.go lines 129-135): a best-effort
settings round-trip and stop message, errors ignored, then
`close(hd.closeChan)` — which faults if the channel is already closed. -/
def Downloader.shutdown (s : CloseState) : CloseState :=
  { s with
      shutdownRuns := s.shutdownRuns + 1
      settingsRoundTrips := s.settingsRoundTrips + 1
      stopMessagesSent := s.stopMessagesSent + 1
      closeChanClosed := true
      faulted := s.faulted || s.closeChanClosed }

/-- `Downloader.Close` (downloader.go lines 139-143): `hd.once.Do(hd.shutdown)`
followed by `hd.conn.Close()` (whose error is returned, never a fault). -/
def Downloader.Close (s : CloseState) : CloseState :=
  let s' := if s.onceConsumed then s
    else { Downloader.shutdown s with onceConsumed := true }
  { s' with connCloses := s'.connCloses + 1 }

/-! ## The chunk repair pipeline (`managedFetchAndRepairChunk` et al.) -/

/-- The failure modes of the logical-data fetch
(`managedFetchLogicalChunkData` / `managedDownloadLogicalChunkData`), one
constructor per distinct error return, carrying the underlying cause where
the source wraps one (`errors.Extend`). -/
inductive FetchError where
  /-- "repair download interrupted by stop call" -/
  | interrupted
  /-- `d.Err()` of the queued download -/
  | downloadFailed (e : Nat)
  /-- "file not available locally" -/
  | notAvailableLocally
  /-- `errors.Extend(err, "failed to open file locally")` -/
  | openFailed (cause : Nat)
  /-- `errors.Extend(err, "failed to read file locally")` -/
  | readFailed (cause : Nat)
deriving DecidableEq, Repr

/-- An `unfinishedChunk`, reduced to the fields the given sources read:
the optional local path (empty string = none, as in Go), the byte range
within the file, the erasure parameters and completion count, and the
piece-usage flags.  The chunk's mutable `logicalChunkData` /
`physicalChunkData` buffers appear in the outcome records instead. -/
structure UnfinishedChunk where
  localPath : String
  offset : Int
  length : Nat
  piecesNeeded : Int
  minimumPieces : Int
  piecesCompleted : Int
  pieceUsage : List Bool

/-- The environment of one logical-data fetch: the outcome of the
filesystem calls and, should the network path run, of the queued download. -/
structure FetchEnv where
  /-- the global stop channel fires before the download finishes -/
  stopFired : Bool
  /-- `d.Err()` of the finished download -/
  downloadErr : Option Nat
  /-- `buf.Bytes()` of the finished download -/
  downloadedData : List Nat
  /-- result of `os.Open(chunk.localPath)` -/
  openErr : Option Nat
  /-- result of `osFile.ReadAt(chunk.logicalChunkData, chunk.offset)` -/
  readErr : Option Nat
  /-- the file's content at `chunk.offset`, byte by byte -/
  diskByte : Nat → Nat

/-- The observable outcome of a logical-data fetch: the returned error, the
value of `chunk.logicalChunkData` afterwards, and whether the network
download path was entered. -/
structure FetchOutcome where
  err : Option FetchError
  logicalChunkData : Option (List Nat)
  networkUsed : Bool
deriving Repr

/-- `Renter.managedDownloadLogicalChunkData` (repair source lines 12-33):
queue a section download, then block on completion against the global stop
channel.  The download is queued (network is used) before the wait; on a
stop the function returns before `chunk.logicalChunkData = buf.Bytes()`,
otherwise the buffer is stored and `d.Err()` returned. -/
def Renter.managedDownloadLogicalChunkData (_chunk : UnfinishedChunk)
    (env : FetchEnv) : FetchOutcome :=
  if env.stopFired then
    { err := some .interrupted, logicalChunkData := none, networkUsed := true }
  else
    { err := env.downloadErr.map FetchError.downloadFailed
      logicalChunkData := some env.downloadedData
      networkUsed := true }

/-- `Renter.managedFetchLogicalChunkData` (repair source lines 40-71).
With no local path it downloads when allowed, else fails; with a local path
it allocates a `chunk.length` buffer, opens and reads the file, and on any
open/read failure either nils the buffer and falls back to a download
(when allowed) or returns the wrapped cause.  On a failure without download
the allocated buffer stays in `chunk.logicalChunkData`; a failed `ReadAt`
leaves its byte content unspecified, modelled as the zero buffer. -/
def Renter.managedFetchLogicalChunkData (chunk : UnfinishedChunk)
    (download : Bool) (env : FetchEnv) : FetchOutcome :=
  if chunk.localPath = "" ∧ download = true then
    Renter.managedDownloadLogicalChunkData chunk env
  else if chunk.localPath = "" then
    { err := some .notAvailableLocally, logicalChunkData := none, networkUsed := false }
  else
    -- chunk.logicalChunkData = make([]byte, chunk.length)
    match env.openErr with
    | some cause =>
      if download then Renter.managedDownloadLogicalChunkData chunk env
      else
        { err := some (.openFailed cause)
          logicalChunkData := some (List.replicate chunk.length 0)
          networkUsed := false }
    | none =>
      match env.readErr with
      | some cause =>
        if download then Renter.managedDownloadLogicalChunkData chunk env
        else
          { err := some (.readFailed cause)
            logicalChunkData := some (List.replicate chunk.length 0)
            networkUsed := false }
      | none =>
        { err := none
          logicalChunkData := some ((List.range chunk.length).map env.diskByte)
          networkUsed := false }

/-- The download decision of `managedFetchAndRepairChunk` (repair source
lines 76-78): network fetch only if more than 25% of the redundancy is
missing.  The counts are Go `int`s; Go integer division truncates toward
zero (`Int.tdiv`). -/
def repairDownloadFlag (piecesNeeded minimumPieces piecesCompleted : Int) : Bool :=
  -- minMissingPiecesToDownload := (chunk.piecesNeeded - chunk.minimumPieces) / 4
  decide (piecesCompleted + (piecesNeeded - minimumPieces).tdiv 4 < piecesNeeded)

/-- The loop of `managedFetchAndRepairChunk` (repair source lines 107-112):
nil out every shard whose piece-usage flag is set, accumulating the freed
byte count.  The caller's sanity check guarantees at least as many shards
as flags; surplus shards are kept. -/
def freeUsedPieces : List Bool → List (List Nat) → Nat × List (Option (List Nat))
  | [], rest => (0, rest.map some)
  | _ :: _, [] => (0, [])
  | b :: bs, p :: ps =>
    let (n, rest) := freeUsedPieces bs ps
    if b then (n + p.length, none :: rest) else (n, some p :: rest)

/-- The environment of one `managedFetchAndRepairChunk` call: the fetch
environment, the erasure coder's result
(`chunk.renterFile.erasureCode.Encode`), and the size of the worker-pool
snapshot. -/
structure RepairEnv where
  fetch : FetchEnv
  encodeResult : Except Nat (List (List Nat))
  workerCount : Nat

/-- The observable outcome of one `managedFetchAndRepairChunk` call: the
`download` flag passed to the fetch, the fetch / encode errors, whether the
network path ran, the final chunk buffers, the byte count credited to the
memory accountant by `managedMemoryAvailableAdd` (none when it was never
called), the number of workers the chunk was queued to, and whether the
shard-count fault was logged at critical severity. -/
structure RepairOutcome where
  downloadFlag : Bool
  fetchErr : Option FetchError
  networkUsed : Bool
  encodeErr : Option Nat
  logicalChunkData : Option (List Nat)
  physicalChunkData : Option (List (Option (List Nat)))
  memoryCredited : Option Nat
  queuedWorkers : Nat
  criticalLogged : Bool
deriving Repr

/-- `Renter.managedFetchAndRepairChunk` (repair source lines 75-122):
decide the download flag, fetch the logical data, erasure-encode it, nil
the logical buffer, sanity-check the shard count (a critical fault returns
*without* crediting the accountant), nil the already-placed shards, credit
the freed bytes, and queue the chunk to every worker in the pool. -/
def Renter.managedFetchAndRepairChunk (chunk : UnfinishedChunk)
    (env : RepairEnv) : RepairOutcome :=
  let download :=
    repairDownloadFlag chunk.piecesNeeded chunk.minimumPieces chunk.piecesCompleted
  let f := Renter.managedFetchLogicalChunkData chunk download env.fetch
  match f.err with
  | some e =>
    -- "Fetching logical data of a chunk failed", debug-logged, abort
    { downloadFlag := download, fetchErr := some e, networkUsed := f.networkUsed
      encodeErr := none, logicalChunkData := f.logicalChunkData
      physicalChunkData := none, memoryCredited := none
      queuedWorkers := 0, criticalLogged := false }
  | none =>
    match env.encodeResult with
    | .error e =>
      -- "Fetching physical data of a chunk failed", debug-logged, abort
      { downloadFlag := download, fetchErr := none, networkUsed := f.networkUsed
        encodeErr := some e, logicalChunkData := f.logicalChunkData
        physicalChunkData := none, memoryCredited := none
        queuedWorkers := 0, criticalLogged := false }
    | .ok physical =>
      -- memoryFreed := uint64(len(chunk.logicalChunkData)); chunk.logicalChunkData = nil
      let memoryFreed := (f.logicalChunkData.getD []).length
      if physical.length < chunk.pieceUsage.length then
        -- "not enough physical pieces to match the upload settings of the file"
        { downloadFlag := download, fetchErr := none, networkUsed := f.networkUsed
          encodeErr := none, logicalChunkData := none
          physicalChunkData := some (physical.map some), memoryCredited := none
          queuedWorkers := 0, criticalLogged := true }
      else
        let freed := freeUsedPieces chunk.pieceUsage physical
        { downloadFlag := download, fetchErr := none, networkUsed := f.networkUsed
          encodeErr := none, logicalChunkData := none
          physicalChunkData := some freed.2
          memoryCredited := some (memoryFreed + freed.1)
          queuedWorkers := env.workerCount, criticalLogged := false }

/-! ## Concrete fixtures used by counterexamples and witnesses -/

/-- A downloader charging one hasting per byte, with a persistence hook
installed, whose ambient hash function maps every blob to 0. -/
def hd0 : Downloader :=
  { bandwidthPrice := 1, hasSaveFn := true, merkleRoot := fun _ => 0 }

/-- A contract with ample funds. -/
def c0 : RenterContract :=
  { lastRevision := { renterFunds := 10000000000, revisionNumber := 3 }
    lastRevisionTxn := 0, downloadSpending := 7, merkleRoots := [1, 2]
    hostPublicKey := 9 }

/-- A full-size all-zero sector. -/
def sector0 : List Nat := List.replicate SectorSize 0

/-- The contract `c0` after one committed download revision signed in
transaction 5. -/
def c0after : RenterContract :=
  { c0 with
      lastRevision := newDownloadRevision c0.lastRevision hd0.sectorPrice
      lastRevisionTxn := 5
      downloadSpending := c0.downloadSpending + hd0.sectorPrice }

/-- An environment in which every protocol step succeeds and the host
returns exactly one full-size sector. -/
def envOk0 : SectorEnv :=
  { startDownloadErr := none, saveErr := none, writeActionErr := none
    negotiate := .accepted 5, readSectorsResult := .ok [sector0] }

/-- An environment in which the host answers the download action with two
payload blobs instead of one. -/
def envTwo : SectorEnv :=
  { startDownloadErr := none, saveErr := none, writeActionErr := none
    negotiate := .accepted 5, readSectorsResult := .ok [[], []] }

/-- An environment in which writing the download action fails. -/
def envWriteFail : SectorEnv :=
  { startDownloadErr := none, saveErr := none, writeActionErr := some 1
    negotiate := .failed 0, readSectorsResult := .error 0 }

/-- An environment in which the settings negotiation (`startDownload`)
fails with error code 7. -/
def envSD : SectorEnv :=
  { startDownloadErr := some 7, saveErr := none, writeActionErr := none
    negotiate := .failed 0, readSectorsResult := .error 0 }

/-- A downloader with no persistence hook. -/
def hdUnit : Downloader :=
  { bandwidthPrice := 1, hasSaveFn := false, merkleRoot := fun _ => 0 }

/-- A contract whose funds equal the uninflated price of one sector and so
lie strictly below the leeway-inflated price. -/
def cEdge : RenterContract :=
  { lastRevision := { renterFunds := 4194304, revisionNumber := 0 }
    lastRevisionTxn := 0, downloadSpending := 0, merkleRoots := []
    hostPublicKey := 0 }

/-- A contract with no funds at all. -/
def cPoor : RenterContract :=
  { lastRevision := { renterFunds := 0, revisionNumber := 0 }
    lastRevisionTxn := 0, downloadSpending := 0, merkleRoots := []
    hostPublicKey := 0 }

/-- A chunk recorded with a local path, more than 75% of its redundancy
present. -/
def chunkLocal : UnfinishedChunk :=
  { localPath := "p", offset := 0, length := 2, piecesNeeded := 10
    minimumPieces := 6, piecesCompleted := 9, pieceUsage := [false] }

/-- A fetch environment in which opening the local file fails with cause 3. -/
def envOpenFail : FetchEnv :=
  { stopFired := false, downloadErr := none, downloadedData := []
    openErr := some 3, readErr := none, diskByte := fun _ => 0 }

/-- A fetch environment in which the local read succeeds. -/
def envDiskOk : FetchEnv :=
  { stopFired := false, downloadErr := none, downloadedData := []
    openErr := none, readErr := none, diskByte := fun _ => 0 }

/-- A chunk with one piece-usage flag whose file, by corruption of its
parameters, will erasure-encode to zero shards. -/
def chunkUsage : UnfinishedChunk :=
  { localPath := "p", offset := 0, length := 2, piecesNeeded := 1
    minimumPieces := 1, piecesCompleted := 1, pieceUsage := [true] }

/-- A repair environment whose erasure coder returns no shards. -/
def envNoShards : RepairEnv :=
  { fetch := envDiskOk, encodeResult := .ok [], workerCount := 3 }

/-! ## Helper lemmas about `Downloader.Sector` -/

/-- Evaluation of one fully successful `Sector` call: with sufficient funds,
no transport failures, a host that counter-signs, and a single payload of
the right size and hash, the call commits the new revision, pays the
leeway-inflated price and updates the success counter. -/
theorem sector_success_eval (hd : Downloader) (c : RenterContract) (root txn : Nat)
    (s : List Nat)
    (hfunds : ¬ c.renterFunds < hd.bandwidthPrice * SectorSize)
    (hlen : s.length = SectorSize) (hroot : hd.merkleRoot s = root) :
    hd.Sector (some c) root
      { startDownloadErr := none, saveErr := none, writeActionErr := none
        negotiate := .accepted txn, readSectorsResult := .ok [s] } =
    { result := .ok ({ c with
          lastRevision := newDownloadRevision c.lastRevision hd.sectorPrice
          lastRevisionTxn := txn
          downloadSpending := c.downloadSpending + hd.sectorPrice }, s)
      returnedContract := some { c with
          lastRevision := newDownloadRevision c.lastRevision hd.sectorPrice
          lastRevisionTxn := txn
          downloadSpending := c.downloadSpending + hd.sectorPrice }
      saved := if hd.hasSaveFn
        then some (newDownloadRevision c.lastRevision hd.sectorPrice, c.merkleRoots)
        else none
      sentDownloadAction := true, sentRevision := true
      failedInteractions := 0, successfulInteractions := 1
      connCloseDeferred := false } := by
  simp only [Downloader.Sector, hfunds, if_false, Downloader.sectorPrice]
  cases h : hd.hasSaveFn <;> simp [hlen, hroot]

/-- Inversion of a successful `Sector` call: whenever the result is `ok`,
the payload has the right length and hash, and the committed contract pays
exactly the leeway-inflated price out of the renter funds and into the
download-spending accumulator. -/
theorem sector_ok_elim (hd : Downloader) (c : RenterContract) (root : Nat)
    (env : SectorEnv) (c' : RenterContract) (s : List Nat)
    (h : (hd.Sector (some c) root env).result = .ok (c', s)) :
    s.length = SectorSize ∧ hd.merkleRoot s = root ∧
    c'.lastRevision = newDownloadRevision c.lastRevision hd.sectorPrice ∧
    c'.downloadSpending = c.downloadSpending + hd.sectorPrice ∧
    (hd.Sector (some c) root env).returnedContract = some c' ∧
    (hd.Sector (some c) root env).successfulInteractions = 1 ∧
    (hd.Sector (some c) root env).failedInteractions = 0 ∧
    (hd.Sector (some c) root env).sentDownloadAction = true := by
  obtain ⟨sd, se, we, neg, rr⟩ := env
  by_cases hf : c.renterFunds < hd.bandwidthPrice * SectorSize <;>
  cases hs : hd.hasSaveFn <;>
  cases sd <;> cases neg <;> cases rr <;> cases we <;>
    simp only [Downloader.Sector, Downloader.sectorPrice, hf, hs] at h ⊢ <;>
    (repeat' split at h) <;>
    simp_all <;>
    (try (obtain ⟨h1, h2⟩ := h; subst h1; simp))

/-- The download-spending accumulator never decreases across a `Sector`
call, whatever the environment does. -/
theorem sectorStep_spending_mono (hd : Downloader) (c : RenterContract) (root : Nat)
    (env : SectorEnv) :
    c.downloadSpending ≤ (sectorStep hd c root env).downloadSpending := by
  obtain ⟨sd, se, we, neg, rr⟩ := env
  unfold sectorStep
  by_cases hf : c.renterFunds < hd.bandwidthPrice * SectorSize <;>
  cases hs : hd.hasSaveFn <;>
  cases sd <;> cases neg <;> cases rr <;> cases we <;>
    simp only [Downloader.Sector, hf, hs] <;>
    (repeat' split) <;> simp

/-- A successful `Sector` call moves exactly the per-call price: the
contract left in the set has the price taken out of the renter funds and
added to the download spending. -/
theorem sector_isOk_step (hd : Downloader) (c : RenterContract) (root : Nat)
    (env : SectorEnv)
    (h : (hd.Sector (some c) root env).result.isOk = true) :
    (sectorStep hd c root env).lastRevision.renterFunds
        = c.lastRevision.renterFunds - hd.sectorPrice ∧
    (sectorStep hd c root env).downloadSpending
        = c.downloadSpending + hd.sectorPrice := by
  rcases hres : (hd.Sector (some c) root env).result with e | ⟨c', s⟩
  · rw [hres] at h; simp [Except.isOk, Except.toBool] at h
  · obtain ⟨-, -, h3, h4, h5, -⟩ := sector_ok_elim hd c root env c' s hres
    unfold sectorStep
    rw [h5]
    exact ⟨by simp [h3, newDownloadRevision], by simp [h4]⟩

/-! ## The claims -/

/-- C1: every `Sector(root)` call either returns a payload whose length is
`SectorSize` and whose merkle root is `root`, or returns a non-nil error;
a payload violating either check is never returned with a nil error. -/
theorem sector_ok_payload_verified (hd : Downloader) (inSet : Option RenterContract)
    (root : Nat) (env : SectorEnv) (c' : RenterContract) (s : List Nat)
    (h : (hd.Sector inSet root env).result = .ok (c', s)) :
    s.length = SectorSize ∧ hd.merkleRoot s = root := by
  cases inSet with
  | none => simp [Downloader.Sector] at h
  | some c =>
    exact ⟨(sector_ok_elim hd c root env c' s h).1,
      (sector_ok_elim hd c root env c' s h).2.1⟩

/-- Witness for C1: a concrete fully successful call returning the all-zero
full-size sector. -/
theorem sector_ok_payload_verified_witness :
    sector0.length = SectorSize ∧ hd0.merkleRoot sector0 = 0 :=
  sector_ok_payload_verified hd0 (some c0) 0 envOk0 c0after sector0
    (congrArg SectorOutcome.result
      (sector_success_eval hd0 c0 0 5 sector0 (by decide)
        (List.length_replicate _ _) rfl))

/-- C2: when the host answers the payload read with a wrong blob count, a
wrong-sized blob, or a blob with the wrong hash, `Sector` returns the
matching distinct error, hands the *unchanged* contract back to the
contract set (the new revision is not committed, download spending and
hence remaining funds are untouched), and in the wrong-count case (as in
the others) increments the failure counter. -/
theorem sector_payload_failure_no_commit (hd : Downloader) (c : RenterContract)
    (root : Nat) (env : SectorEnv)
    (hsd : env.startDownloadErr = none) (hse : env.saveErr = none)
    (hwe : env.writeActionErr = none)
    (hneg : (∃ txn, env.negotiate = NegotiateOutcome.accepted txn) ∨
      env.negotiate = NegotiateOutcome.stopResponse)
    (hfunds : hd.bandwidthPrice * SectorSize ≤ c.renterFunds) :
    (∀ sectors, env.readSectorsResult = .ok sectors → sectors.length ≠ 1 →
      (hd.Sector (some c) root env).result = .error .notEnoughSectors ∧
      (hd.Sector (some c) root env).returnedContract = some c ∧
      (hd.Sector (some c) root env).failedInteractions = 1 ∧
      (hd.Sector (some c) root env).successfulInteractions = 0) ∧
    (∀ s, env.readSectorsResult = .ok [s] → s.length ≠ SectorSize →
      (hd.Sector (some c) root env).result = .error .notEnoughSectorData ∧
      (hd.Sector (some c) root env).returnedContract = some c ∧
      (hd.Sector (some c) root env).failedInteractions = 1) ∧
    (∀ s, env.readSectorsResult = .ok [s] → s.length = SectorSize →
      hd.merkleRoot s ≠ root →
      (hd.Sector (some c) root env).result = .error .badSectorData ∧
      (hd.Sector (some c) root env).returnedContract = some c ∧
      (hd.Sector (some c) root env).failedInteractions = 1) ∧
    newDownloadRevision c.lastRevision hd.sectorPrice ≠ c.lastRevision := by
  obtain ⟨sd, se, we, neg, rr⟩ := env
  obtain rfl : sd = none := hsd
  obtain rfl : se = none := hse
  obtain rfl : we = none := hwe
  have hf : ¬ c.renterFunds < hd.bandwidthPrice * SectorSize := Nat.not_lt.mpr hfunds
  refine ⟨?_, ?_, ?_,
    fun h => Nat.succ_ne_self c.lastRevision.revisionNumber
      (congrArg Revision.revisionNumber h)⟩
  · rintro sectors rfl hlen
    rcases hneg with ⟨txn, rfl⟩ | rfl <;>
    cases hs : hd.hasSaveFn <;>
    match sectors, hlen with
    | [], _ => simp [Downloader.Sector, hf, hs]
    | [s], hlen => exact absurd rfl hlen
    | a :: b :: t, _ => simp [Downloader.Sector, hf, hs]
  · rintro s rfl hlen
    rcases hneg with ⟨txn, rfl⟩ | rfl <;>
    cases hs : hd.hasSaveFn <;>
    simp [Downloader.Sector, hf, hs, hlen]
  · rintro s rfl hlen hroot
    rcases hneg with ⟨txn, rfl⟩ | rfl <;>
    cases hs : hd.hasSaveFn <;>
    simp [Downloader.Sector, hf, hs, hlen, hroot]

/-- Witness for C2: the host sends two (empty) blobs; the call fails with
the wrong-count error, the contract set keeps the old contract, and the
failure counter is incremented. -/
theorem sector_payload_failure_no_commit_witness :
    (hd0.Sector (some c0) 0 envTwo).result = .error .notEnoughSectors ∧
    (hd0.Sector (some c0) 0 envTwo).returnedContract = some c0 ∧
    (hd0.Sector (some c0) 0 envTwo).failedInteractions = 1 ∧
    (hd0.Sector (some c0) 0 envTwo).successfulInteractions = 0 :=
  (sector_payload_failure_no_commit hd0 c0 0 envTwo rfl rfl rfl
      (Or.inl ⟨5, rfl⟩) (by decide)).1 [[], []] rfl (by decide)

/-- C3 (evaluation at the failing input): the persistence hook receives
`rev`, the *newly created* download revision — which differs from the
contract's current revision — together with the committed root list, and
when the call later fails the revision was still never sent.  The code's
own comment (downloader.go lines 61-65) says the *old* revision is saved. -/
theorem sector_savefn_receives_new_revision :
    (hd0.Sector (some c0) 0 envWriteFail).saved
        = some (newDownloadRevision c0.lastRevision hd0.sectorPrice, c0.merkleRoots) ∧
    newDownloadRevision c0.lastRevision hd0.sectorPrice ≠ c0.lastRevision ∧
    (hd0.Sector (some c0) 0 envWriteFail).result = .error (.writeActionFailed 1) ∧
    (hd0.Sector (some c0) 0 envWriteFail).sentRevision = false :=
  ⟨rfl, by decide, rfl, rfl⟩

/-- C4 (counterexample): a `Sector` call that fails because the contract is
not in the contract set — not a revision-mismatch failure — updates
*neither* reputation counter, refuting "every Sector call updates exactly
one counter except revision-mismatch failures". -/
theorem sector_counter_counterexample :
    (hd0.Sector none 0 envTwo).result = .error .contractNotPresent ∧
    (hd0.Sector none 0 envTwo).failedInteractions = 0 ∧
    (hd0.Sector none 0 envTwo).successfulInteractions = 0 :=
  ⟨rfl, rfl, rfl⟩

set_option maxHeartbeats 1000000 in
/-- C4 (amended): `Sector` updates exactly one reputation counter — success
on a nil error, failure on a non-nil error — for every call that got as far
as sending the download action; calls failing before that point update
neither counter.  (`Sector` itself has no revision-mismatch exemption; that
exemption lives in `NewDownloader`.) -/
theorem sector_counter_discipline (hd : Downloader) (inSet : Option RenterContract)
    (root : Nat) (env : SectorEnv) :
    (hd.Sector inSet root env).successfulInteractions
        = (if (hd.Sector inSet root env).result.isOk then 1 else 0) ∧
    (hd.Sector inSet root env).failedInteractions
        = (if (hd.Sector inSet root env).sentDownloadAction
              && !(hd.Sector inSet root env).result.isOk then 1 else 0) ∧
    (!(hd.Sector inSet root env).result.isOk
        || (hd.Sector inSet root env).sentDownloadAction) = true := by
  cases inSet with
  | none => simp [Downloader.Sector, Except.isOk, Except.toBool]
  | some c =>
    obtain ⟨sd, se, we, neg, rr⟩ := env
    by_cases hf : c.renterFunds < hd.bandwidthPrice * SectorSize <;>
    cases hs : hd.hasSaveFn <;>
    cases sd <;> cases neg <;> cases rr <;> cases we <;>
      simp only [Downloader.Sector, hf, hs] <;>
      (repeat' split) <;>
      simp_all [Except.isOk, Except.toBool]

/-- C5 (counterexample): with funds exactly the uninflated price of one
sector — strictly below the leeway-inflated price the claim says is
required — `Sector` proceeds past the funds check and fails only at the
settings negotiation, not with the insufficient-funds error. -/
theorem sector_funds_check_counterexample :
    cEdge.renterFunds < mulLeeway (hdUnit.bandwidthPrice * SectorSize) ∧
    (hdUnit.Sector (some cEdge) 0 envSD).result = .error (.startDownloadFailed 7) :=
  ⟨by decide, rfl⟩

/-- C5 (amended): `Sector` rejects with the insufficient-funds error, before
any protocol round-trip, exactly when the remaining renter funds are below
the *uninflated* price `bandwidthPrice × SectorSize`; the 0.2% leeway is
applied to the price only after this check, so a call whose funds lie
between the base and the inflated price proceeds. -/
theorem sector_funds_check_base_price (hd : Downloader) (c : RenterContract)
    (root : Nat) (env : SectorEnv) :
    (c.renterFunds < hd.bandwidthPrice * SectorSize →
      (hd.Sector (some c) root env).result = .error .insufficientFunds ∧
      (hd.Sector (some c) root env).returnedContract = some c ∧
      (hd.Sector (some c) root env).saved = none ∧
      (hd.Sector (some c) root env).sentDownloadAction = false ∧
      (hd.Sector (some c) root env).sentRevision = false) ∧
    (hd.bandwidthPrice * SectorSize ≤ c.renterFunds →
      (hd.Sector (some c) root env).result ≠ .error .insufficientFunds) := by
  constructor
  · intro h
    simp [Downloader.Sector, h]
  · intro h
    have hf : ¬ c.renterFunds < hd.bandwidthPrice * SectorSize := Nat.not_lt.mpr h
    obtain ⟨sd, se, we, neg, rr⟩ := env
    cases hs : hd.hasSaveFn <;>
    cases sd <;> cases neg <;> cases rr <;> cases we <;>
      simp only [Downloader.Sector, hf, hs] <;>
      (repeat' split) <;>
      simp_all

/-- Witness for C5 (amended): a contract with zero funds is rejected before
any traffic. -/
theorem sector_funds_check_base_price_witness :
    (hdUnit.Sector (some cPoor) 0 envSD).result = Except.error .insufficientFunds ∧
    (hdUnit.Sector (some cPoor) 0 envSD).returnedContract = some cPoor ∧
    (hdUnit.Sector (some cPoor) 0 envSD).saved = none ∧
    (hdUnit.Sector (some cPoor) 0 envSD).sentDownloadAction = false ∧
    (hdUnit.Sector (some cPoor) 0 envSD).sentRevision = false :=
  (sector_funds_check_base_price hdUnit cPoor 0 envSD).1 (by decide)

/-- C6: over any sequence of `Sector` calls on one contract in which every
call succeeds and the funds cover the total, the remaining renter funds
drop by exactly (number of calls) × (per-call leeway-inflated price) and the
download-spending accumulator grows by the same amount; moreover download
spending is monotonically non-decreasing over *any* sequence of calls,
successful or not. -/
theorem run_sectors_accounting (hd : Downloader) (c : RenterContract)
    (calls : List (Nat × SectorEnv)) :
    (allSucceed hd c calls →
      hd.sectorPrice * calls.length ≤ c.lastRevision.renterFunds →
      (runSectors hd c calls).lastRevision.renterFunds
          = c.lastRevision.renterFunds - hd.sectorPrice * calls.length ∧
      (runSectors hd c calls).downloadSpending
          = c.downloadSpending + hd.sectorPrice * calls.length) ∧
    c.downloadSpending ≤ (runSectors hd c calls).downloadSpending := by
  induction calls generalizing c with
  | nil => exact ⟨fun _ _ => by simp [runSectors], Nat.le_refl _⟩
  | cons call rest ih =>
    obtain ⟨root, env⟩ := call
    constructor
    · rintro ⟨hok, hrest⟩ hfunds
      obtain ⟨hstepF, hstepS⟩ := sector_isOk_step hd c root env hok
      have hlen : ((root, env) :: rest).length = rest.length + 1 := rfl
      rw [hlen, Nat.mul_succ] at hfunds ⊢
      have hfunds' : hd.sectorPrice * rest.length
          ≤ (sectorStep hd c root env).lastRevision.renterFunds := by
        rw [hstepF]; omega
      obtain ⟨ihF, ihS⟩ := (ih (sectorStep hd c root env)).1 hrest hfunds'
      have hrun : runSectors hd c ((root, env) :: rest)
          = runSectors hd (sectorStep hd c root env) rest := rfl
      rw [hrun, ihF, ihS, hstepF, hstepS]
      omega
    · exact Nat.le_trans (sectorStep_spending_mono hd c root env)
        (ih (sectorStep hd c root env)).2

/-- Witness for C6: one concrete successful call on `c0` moves exactly the
per-call price from funds into download spending. -/
theorem run_sectors_accounting_witness :
    (runSectors hd0 c0 [(0, envOk0)]).lastRevision.renterFunds
        = c0.lastRevision.renterFunds - hd0.sectorPrice * 1 ∧
    (runSectors hd0 c0 [(0, envOk0)]).downloadSpending
        = c0.downloadSpending + hd0.sectorPrice * 1 :=
  (run_sectors_accounting hd0 c0 [(0, envOk0)]).1
    (by
      refine ⟨?_, trivial⟩
      have e2 : (hd0.Sector (some c0) 0 envOk0).result = Except.ok (c0after, sector0) :=
        congrArg SectorOutcome.result
          (sector_success_eval hd0 c0 0 5 sector0 (by decide)
            (List.length_replicate _ _) rfl)
      rw [e2]
      rfl)
    (by decide)

/-- C7: `RepairChunk` hands the fetch an `allowDownload` flag that is true
exactly when `piecesCompleted + (piecesNeeded − minimumPieces)/4 <
piecesNeeded` (Go integer division, i.e. truncated); with
piecesNeeded = 10 and minimumPieces = 6 it chooses local-only for
piecesCompleted = 9 and network fetch for piecesCompleted = 7. -/
theorem repair_download_decision (chunk : UnfinishedChunk) (env : RepairEnv) :
    (Renter.managedFetchAndRepairChunk chunk env).downloadFlag
        = decide (chunk.piecesCompleted
            + (chunk.piecesNeeded - chunk.minimumPieces).tdiv 4
            < chunk.piecesNeeded) ∧
    repairDownloadFlag 10 6 9 = false ∧
    repairDownloadFlag 10 6 7 = true ∧
    (∀ e : RepairEnv,
      (Renter.managedFetchAndRepairChunk chunkLocal e).downloadFlag = false) ∧
    (∀ e : RepairEnv,
      (Renter.managedFetchAndRepairChunk
        { chunkLocal with piecesCompleted := 7 } e).downloadFlag = true) := by
  have key : ∀ (ch : UnfinishedChunk) (e : RepairEnv),
      (Renter.managedFetchAndRepairChunk ch e).downloadFlag
        = repairDownloadFlag ch.piecesNeeded ch.minimumPieces ch.piecesCompleted := by
    intro ch e
    simp only [Renter.managedFetchAndRepairChunk]
    (repeat' split) <;> rfl
  refine ⟨?_, by decide, by decide, ?_, ?_⟩
  · rw [key]; rfl
  · intro e; rw [key]; decide
  · intro e; rw [key]; decide

/-- Auxiliary for C8: with `allowDownload = false` the fetch never enters
the network download path, whatever the chunk and environment. -/
theorem fetch_no_download_no_network (chunk : UnfinishedChunk) (env : FetchEnv) :
    (Renter.managedFetchLogicalChunkData chunk false env).networkUsed = false := by
  by_cases hlp : chunk.localPath = "" <;>
  cases ho : env.openErr <;> cases hr : env.readErr <;>
    simp [Renter.managedFetchLogicalChunkData, hlp, ho, hr]

/-- C8: with `allowDownload = false`, a chunk with no local path, a failing
open, or a failing read makes the fetch return an error carrying the
underlying cause, with no network download attempted; the network path runs
only when `allowDownload` is true. -/
theorem fetch_local_failure_no_network (chunk : UnfinishedChunk) (env : FetchEnv) :
    ((Renter.managedFetchLogicalChunkData chunk false env).networkUsed = false) ∧
    (chunk.localPath = "" →
      (Renter.managedFetchLogicalChunkData chunk false env).err
        = some .notAvailableLocally) ∧
    (chunk.localPath ≠ "" → ∀ e, env.openErr = some e →
      (Renter.managedFetchLogicalChunkData chunk false env).err
        = some (.openFailed e)) ∧
    (chunk.localPath ≠ "" → env.openErr = none → ∀ e, env.readErr = some e →
      (Renter.managedFetchLogicalChunkData chunk false env).err
        = some (.readFailed e)) ∧
    (∀ download, (Renter.managedFetchLogicalChunkData chunk download env).networkUsed = true →
      download = true) := by
  refine ⟨fetch_no_download_no_network chunk env, ?_, ?_, ?_, ?_⟩
  · intro h
    simp [Renter.managedFetchLogicalChunkData, h]
  · intro h e he
    simp [Renter.managedFetchLogicalChunkData, h, he]
  · intro h ho e he
    simp [Renter.managedFetchLogicalChunkData, h, ho, he]
  · intro download
    cases download with
    | true => intro _; rfl
    | false =>
      intro hnet
      rw [fetch_no_download_no_network chunk env] at hnet
      exact Bool.noConfusion hnet

/-- Witness for C8: a chunk with a local path whose open fails with cause 3,
fetched with `allowDownload = false`: the error carries the cause and no
network traffic happened. -/
theorem fetch_local_failure_no_network_witness :
    (Renter.managedFetchLogicalChunkData chunkLocal false envOpenFail).err
        = some (.openFailed 3) ∧
    (Renter.managedFetchLogicalChunkData chunkLocal false envOpenFail).networkUsed
        = false :=
  ⟨(fetch_local_failure_no_network chunkLocal envOpenFail).2.2.1 (by decide) 3 rfl,
    (fetch_local_failure_no_network chunkLocal envOpenFail).1⟩

/-- Auxiliary for C9: after one or more `Close` calls the downloader is in
the fully shut down state, with the shutdown body having run exactly once
and one `conn.Close()` per call. -/
theorem close_iterate_succ (n : Nat) :
    Downloader.Close^[n + 1] initialCloseState
      = { onceConsumed := true, closeChanClosed := true, shutdownRuns := 1
          settingsRoundTrips := 1, stopMessagesSent := 1, connCloses := n + 1
          faulted := false } := by
  induction n with
  | zero => rfl
  | succ n ih => rw [Function.iterate_succ_apply', ih]; rfl

/-- C9: `Close` is idempotent: over any number of repeated calls the
shutdown sequence (settings round-trip, stop message, closing the watcher
channel) executes at most once — exactly once as soon as there is one call —
and no repeated call faults (the closed channel is never closed again). -/
theorem close_repeated_calls (n : Nat) :
    (Downloader.Close^[n] initialCloseState).shutdownRuns = min 1 n ∧
    (Downloader.Close^[n] initialCloseState).settingsRoundTrips = min 1 n ∧
    (Downloader.Close^[n] initialCloseState).stopMessagesSent = min 1 n ∧
    (Downloader.Close^[n] initialCloseState).connCloses = n ∧
    (Downloader.Close^[n] initialCloseState).closeChanClosed = decide (1 ≤ n) ∧
    (Downloader.Close^[n] initialCloseState).faulted = false := by
  cases n with
  | zero => exact ⟨rfl, rfl, rfl, rfl, rfl, rfl⟩
  | succ n =>
    rw [close_iterate_succ n]
    refine ⟨?_, ?_, ?_, rfl, ?_, rfl⟩
    · show 1 = min 1 (n + 1); omega
    · show 1 = min 1 (n + 1); omega
    · show 1 = min 1 (n + 1); omega
    · show true = decide (1 ≤ n + 1)
      symm
      rw [decide_eq_true_eq]
      omega

/-- C10: when the fetch and the erasure encoding succeed but fewer shards
come back than there are piece-usage flags, `RepairChunk` has already
released the logical buffer (`logicalChunkData = nil`) yet returns without
ever calling `managedMemoryAvailableAdd`: the freed bytes are never credited
to the shared memory accountant, and the chunk reaches no worker. -/
theorem repair_shard_fault_skips_credit (chunk : UnfinishedChunk) (env : RepairEnv)
    (physical : List (List Nat))
    (hfetch : (Renter.managedFetchLogicalChunkData chunk
        (repairDownloadFlag chunk.piecesNeeded chunk.minimumPieces chunk.piecesCompleted)
        env.fetch).err = none)
    (henc : env.encodeResult = .ok physical)
    (hlt : physical.length < chunk.pieceUsage.length) :
    (Renter.managedFetchAndRepairChunk chunk env).memoryCredited = none ∧
    (Renter.managedFetchAndRepairChunk chunk env).logicalChunkData = none ∧
    (Renter.managedFetchAndRepairChunk chunk env).criticalLogged = true ∧
    (Renter.managedFetchAndRepairChunk chunk env).queuedWorkers = 0 := by
  simp only [Renter.managedFetchAndRepairChunk, hfetch, henc, hlt, if_true]
  exact ⟨trivial, trivial, trivial, trivial⟩

/-- Witness for C10: a one-flag chunk whose coder returns no shards; the
logical buffer is gone and no memory is credited. -/
theorem repair_shard_fault_skips_credit_witness :
    (Renter.managedFetchAndRepairChunk chunkUsage envNoShards).memoryCredited = none ∧
    (Renter.managedFetchAndRepairChunk chunkUsage envNoShards).logicalChunkData = none ∧
    (Renter.managedFetchAndRepairChunk chunkUsage envNoShards).criticalLogged = true ∧
    (Renter.managedFetchAndRepairChunk chunkUsage envNoShards).queuedWorkers = 0 :=
  repair_shard_fault_skips_credit chunkUsage envNoShards [] rfl rfl (by decide)

end Sia
